import Mathlib

/-!
Verification of the LaTeX capability-probing module (`sage/features/latex.py`).

The module is embedded shallowly: each probe operation becomes a pure function of
an explicit external environment (`Env`) recording what the search path, the shell
and the `kpsewhich` resolver would answer, and each operation also returns the
trace of external calls it performs.  Base-class machinery that is not among the
given source files (`Executable`, `StaticFile`, `JoinFeature`, the result cache) is
modelled from the specification, as marked in the respective doc comments.
-/

namespace SageLatex

/-- Result of testing a feature, embedding `FeatureTestResult`: the subject feature
name, the boolean verdict, and an optional human-readable reason carried by a
negative verdict. -/
structure FeatureTestResult where
  feature : String
  isPresent : Bool
  reason : Option String
deriving DecidableEq

/-- Faults a probe operation can raise to its caller.  The `featureNotPresent`
constructor embeds the distinguished `FeatureNotPresentError`; `osError` embeds an
operating-system fault such as the `FileNotFoundError` raised when a subprocess
cannot be launched at all. -/
inductive PyError where
  | featureNotPresent (feature : String) (reason : String)
  | osError
deriving DecidableEq

/-- One observable external effect of a probe: a search-path lookup of a command, a
shell run of a command line, a launch of the `kpsewhich` resolver on a filename,
the creation of a file, or the deletion of a file. -/
inductive ExtCall where
  | whichLookup (cmd : String)
  | shellRun (cmdline : String)
  | kpseRun (filename : String)
  | createFile (path : String)
  | deleteFile (path : String)
deriving DecidableEq

/-- The external environment a probe runs against: which commands the search path
resolves, the exit status the shell reports for a command line (an absent program
surfaces as the shell's own nonzero status, conventionally 127), the outcome of
launching `kpsewhich` on a filename (`none` when the resolver executable cannot be
launched at all; otherwise its exit status and standard output, a negative status
standing for death by signal, per the Python returncode convention), and the
scratch directory and file name handed out by the temporary-file utility. -/
structure Env where
  which : String → Bool
  shellExit : String → Int
  kpsewhich : String → Option (Int × String)
  tmpDir : String
  tmpFile : String

/-- Python `str.replace` specialised to a one-character pattern and replacement,
the only form the source uses: substitute every occurrence of the character. -/
def replaceChar (old new : Char) (s : String) : String :=
  String.mk (s.data.map (fun c => if c = old then new else c))

/-- Python `str.strip()` with no argument, as applied to the resolver's standard
output: remove leading and trailing whitespace characters. -/
def pyStrip (s : String) : String :=
  String.mk (((s.data.dropWhile Char.isWhitespace).reverse.dropWhile
    Char.isWhitespace).reverse)

/-- Following the claim's words only, for comparison with `pyStrip` (which is what
the code performs): remove trailing whitespace, leaving leading whitespace in
place. -/
def stripTrailing (s : String) : String :=
  String.mk ((s.data.reverse.dropWhile Char.isWhitespace).reverse)

/-- Python `repr` of a filename string, as produced by the `!r` conversion used in
the resolver failure reason; for the plain filenames at hand it surrounds the text
with single quotes. -/
def pyRepr (s : String) : String := "\x27" ++ s ++ "\x27"

/-- Modelled from the spec: the NotFound reason of the `Executable` existence check
(the `Executable` base class is not among the given source files); a negative
result names the command that could not be located. -/
def executableNotFoundReason (cmd : String) : String :=
  "Executable " ++ cmd ++ " not found on PATH"

/-- Modelled from the spec: `Executable._is_present` (base class not among the
given source files) — an executable probe is present iff the named command is
discoverable on the search path; no subprocess is executed.  The external-call
trace holds the one search-path lookup. -/
def Executable_is_present (env : Env) (cmd : String) :
    FeatureTestResult × List ExtCall :=
  (if env.which cmd then ⟨cmd, true, none⟩
   else ⟨cmd, false, some (executableNotFoundReason cmd)⟩,
   [ExtCall.whichLookup cmd])

/-- Modelled from the spec: `JoinFeature._is_present` (base class not among the
given source files) — members are evaluated in declaration order; the first member
to report absent terminates evaluation and its result is returned unmodified; when
every member is present the composite is present with no reason.  The members of
the probes at hand are executables, given by command name. -/
def JoinFeature_is_present (env : Env) (name : String) (members : List String) :
    FeatureTestResult × List ExtCall :=
  match members with
  | [] => (⟨name, true, none⟩, [])
  | m :: rest =>
    let test := Executable_is_present env m
    if test.1.isPresent then
      let next := JoinFeature_is_present env name rest
      (next.1, test.2 ++ next.2)
    else test

/-- `TeXFile.absolute_filename`: launch `kpsewhich <filename>` with `check=True`;
on exit status zero return the standard output stripped of surrounding whitespace;
any nonzero exit status raises `CalledProcessError`, which is caught and converted
into the distinguished `FeatureNotPresentError` whose reason names the filename and
says it was not found by kpsewhich; a resolver that cannot be launched at all
raises an operating-system error that the source does not catch. -/
def TeXFile_absolute_filename (env : Env) (name filename : String) :
    Except PyError String × List ExtCall :=
  match env.kpsewhich filename with
  | none => (Except.error PyError.osError, [ExtCall.kpseRun filename])
  | some (code, out) =>
    if code = 0 then (Except.ok (pyStrip out), [ExtCall.kpseRun filename])
    else
      (Except.error (PyError.featureNotPresent name
        (pyRepr filename ++ " not found by kpsewhich")),
       [ExtCall.kpseRun filename])

/-- Modelled from the spec: `StaticFile._is_present` (base class not among the
given source files) — the static-file existence check performs the resolver lookup
and converts the distinguished not-present error into a negative result carrying
the same reason; any other fault propagates to the caller. -/
def StaticFile_is_present (env : Env) (name filename : String) :
    Except PyError FeatureTestResult × List ExtCall :=
  let res := TeXFile_absolute_filename env name filename
  match res.1 with
  | Except.ok _ => (Except.ok ⟨name, true, none⟩, res.2)
  | Except.error (PyError.featureNotPresent _ r) =>
    (Except.ok ⟨name, false, some r⟩, res.2)
  | Except.error e => (Except.error e, res.2)

/-- `TeXFile._is_present`: first the JoinFeature check over the declared members —
the single `pdflatex` executable dependency — whose negative result is returned
unchanged; only when it succeeds is the static-file check via the resolver
performed. -/
def TeXFile_is_present (env : Env) (name filename : String) :
    Except PyError FeatureTestResult × List ExtCall :=
  let test := JoinFeature_is_present env name ["pdflatex"]
  if test.1.isPresent then
    let next := StaticFile_is_present env name filename
    (next.1, test.2 ++ next.2)
  else (Except.ok test.1, test.2)

/-- The failure reason `LaTeX.is_functional` builds for a nonzero exit status. -/
def latexFunctionalFailureReason (r : Int) : String :=
  "Running latex on a sample file returned non-zero exit status " ++ toString r

/-- The command line `LaTeX.is_functional` assembles by joining the program name,
the non-interactive flag and the scratch file's base name with spaces. -/
def latexCmdline (env : Env) (name : String) : String :=
  name ++ " -interaction=nonstopmode " ++ env.tmpFile

/-- `LaTeX.is_functional`: write a minimal document into a fresh scratch file, run
the program on it through the shell from the scratch directory, and inspect only
the exit status: zero yields a positive result; nonzero yields a negative result
whose reason embeds the observed exit status.  The document content is a fixed
constant, so the outcome of the run is a function of the command line recorded in
the environment.  The scratch file is created and never deleted here. -/
def LaTeX_is_functional (env : Env) (name : String) :
    FeatureTestResult × List ExtCall :=
  let cmdline := latexCmdline env name
  let ops := [ExtCall.createFile (env.tmpDir ++ "/" ++ env.tmpFile),
              ExtCall.shellRun cmdline]
  if env.shellExit cmdline = 0 then (⟨name, true, none⟩, ops)
  else
    (⟨name, false, some (latexFunctionalFailureReason (env.shellExit cmdline))⟩,
     ops)

/-- Modelled from the spec: the `is_present` caching protocol of the `Feature` base
class (not among the given source files) — the cache is consulted first; on a miss
the kind-specific check runs, its result is stored and returned.  The check is
given together with the number of external invocations it performs, so a call
reports the result, the updated cache and the external invocations actually
made. -/
def cached_is_present (cache : Option FeatureTestResult)
    (check : Unit → FeatureTestResult × Nat) :
    FeatureTestResult × Option FeatureTestResult × Nat :=
  match cache with
  | some r => (r, some r, 0)
  | none =>
    let res := check ()
    (res.1, some res.1, res.2)

/-- The two kinds of concrete feature the module declares. -/
inductive FeatureKind where
  | executableKind
  | texFileKind
deriving DecidableEq

/-- A concrete feature declaration: its kind, its public name and, for a TeX-file
feature, the probed filename. -/
structure FeatureDecl where
  kind : FeatureKind
  name : String
  filename : Option String
deriving DecidableEq

/-- The `latex` feature: an executable probe for the `latex` program. -/
def latexFeature : FeatureDecl := ⟨FeatureKind.executableKind, "latex", none⟩

/-- The `pdflatex` feature. -/
def pdflatexFeature : FeatureDecl := ⟨FeatureKind.executableKind, "pdflatex", none⟩

/-- The `xelatex` feature. -/
def xelatexFeature : FeatureDecl := ⟨FeatureKind.executableKind, "xelatex", none⟩

/-- The `lualatex` feature. -/
def lualatexFeature : FeatureDecl := ⟨FeatureKind.executableKind, "lualatex", none⟩

/-- `LaTeXPackage.__classcall__` name derivation: the text `latex_package_` put in
front of the package identifier, with every dash of the whole then replaced by an
underscore. -/
def LaTeXPackage_name (pkg : String) : String :=
  replaceChar '-' '_' ("latex_package_" ++ pkg)

/-- `LaTeXPackage.__classcall__` filename derivation: the package identifier with
the `.sty` suffix appended. -/
def LaTeXPackage_filename (pkg : String) : String := pkg ++ ".sty"

/-- `LaTeXPackage` construction: a TeX-file feature with the derived name and the
derived filename. -/
def LaTeXPackage (pkg : String) : FeatureDecl :=
  ⟨FeatureKind.texFileKind, LaTeXPackage_name pkg, some (LaTeXPackage_filename pkg)⟩

/-- `all_features`: the registry enumeration of the module. -/
def all_features : List FeatureDecl :=
  [latexFeature, pdflatexFeature, xelatexFeature, lualatexFeature,
   LaTeXPackage "tkz-graph"]

/-- An environment with no executable on the search path at all; the shell reports
exit status 127 for every command line, and the resolver cannot be launched. -/
def envAllAbsent : Env :=
  ⟨fun _ => false, fun _ => 127, fun _ => none, "tmp", "t.tex"⟩

/-- An environment in which no executable is on the search path but the resolver,
when launched, resolves every filename to a fixed path with exit status zero. -/
def envNoPdflatex : Env :=
  ⟨fun _ => false, fun _ => 0, fun _ => some (0, "/texmf/article.cls"), "tmp",
   "t.tex"⟩

/-- An environment whose resolver succeeds but prints its path with a leading
space on standard output. -/
def envLeadingSpace : Env :=
  ⟨fun _ => true, fun _ => 0, fun _ => some (0, " /texmf/article.cls"), "tmp",
   "t.tex"⟩

/-- An environment with everything on the search path and every run succeeding. -/
def envAllOk : Env :=
  ⟨fun _ => true, fun _ => 0, fun _ => some (0, "/texmf/article.cls"), "tmp",
   "t.tex"⟩

/-- An environment whose search path has every executable but whose resolver
cannot be launched at all. -/
def envNoResolver : Env :=
  ⟨fun _ => true, fun _ => 0, fun _ => none, "tmp", "t.tex"⟩

/-- An environment whose resolver dies by signal 11, reported as returncode
minus eleven per the Python convention. -/
def envResolverSignal : Env :=
  ⟨fun _ => true, fun _ => 0, fun _ => some (-11, ""), "tmp", "t.tex"⟩

/-- Substituting a character distributes over string append. -/
theorem replaceChar_append (o n : Char) (s t : String) :
    replaceChar o n (s ++ t) = replaceChar o n s ++ replaceChar o n t := by
  cases s
  cases t
  exact congrArg String.mk (List.map_append _ _ _)

/-- The functional-failure reason can never coincide with the NotFound reason:
the two texts begin differently. -/
theorem reason_texts_distinct (r : Int) (name : String) :
    latexFunctionalFailureReason r ≠ executableNotFoundReason name := by
  intro h
  have h2 := congrArg (fun s => s.data.take 4) h
  simp only [latexFunctionalFailureReason, executableNotFoundReason,
    String.data_append, List.append_assoc] at h2
  rw [List.take_append_of_le_length (by decide),
    List.take_append_of_le_length (by decide)] at h2
  exact absurd h2 (by decide)

/-- Claim C1: when the `pdflatex` member of a TeXFile probe reports absent,
`_is_present` returns that member's negative result with its reason unmodified,
the kpsewhich resolver is never launched, and the trace holds exactly the
dependency lookup, evaluated first in declaration order. -/
theorem texFile_is_present_short_circuit (env : Env) (name filename : String)
    (h : env.which "pdflatex" = false) :
    (TeXFile_is_present env name filename).1 =
      Except.ok ⟨"pdflatex", false, some (executableNotFoundReason "pdflatex")⟩ ∧
    (TeXFile_is_present env name filename).1 =
      Except.ok (Executable_is_present env "pdflatex").1 ∧
    (TeXFile_is_present env name filename).2 = [ExtCall.whichLookup "pdflatex"] ∧
    ExtCall.kpseRun filename ∉ (TeXFile_is_present env name filename).2 := by
  simp [TeXFile_is_present, JoinFeature_is_present, Executable_is_present, h]

/-- Witness for C1 at a concrete environment lacking pdflatex. -/
theorem texFile_is_present_short_circuit_witness :
    (TeXFile_is_present envAllAbsent "x" "x.tex").1 =
      Except.ok ⟨"pdflatex", false, some (executableNotFoundReason "pdflatex")⟩ ∧
    (TeXFile_is_present envAllAbsent "x" "x.tex").1 =
      Except.ok (Executable_is_present envAllAbsent "pdflatex").1 ∧
    (TeXFile_is_present envAllAbsent "x" "x.tex").2 =
      [ExtCall.whichLookup "pdflatex"] ∧
    ExtCall.kpseRun "x.tex" ∉ (TeXFile_is_present envAllAbsent "x" "x.tex").2 :=
  texFile_is_present_short_circuit envAllAbsent "x" "x.tex" rfl

/-- Counterexample for C2: with the resolver succeeding but printing a leading
space, `absolute_filename` strips both ends of the output, not only trailing
whitespace, so the claim's trailing-only reading fails at this input. -/
theorem texFile_absolute_filename_not_trailing_only :
    (TeXFile_absolute_filename envLeadingSpace "x" "article.cls").1 =
      Except.ok "/texmf/article.cls" ∧
    stripTrailing " /texmf/article.cls" = " /texmf/article.cls" ∧
    (TeXFile_absolute_filename envLeadingSpace "x" "article.cls").1 ≠
      Except.ok (stripTrailing " /texmf/article.cls") := by
  refine ⟨rfl, by decide, ?_⟩
  intro hcontra
  have h2 : (Except.ok "/texmf/article.cls" : Except PyError String) =
      Except.ok " /texmf/article.cls" := hcontra
  exact absurd (Except.ok.inj h2) (by decide)

/-- Claim C2 as amended: when the resolver exits zero, `absolute_filename` returns
its standard output with leading and trailing whitespace stripped; it raises the
distinguished not-present error naming the filename exactly when the resolver
exits with nonzero status. -/
theorem texFile_absolute_filename_resolution (env : Env) (name filename : String)
    (code : Int) (out : String) (h : env.kpsewhich filename = some (code, out)) :
    (code = 0 →
      (TeXFile_absolute_filename env name filename).1 = Except.ok (pyStrip out)) ∧
    (code ≠ 0 →
      (TeXFile_absolute_filename env name filename).1 =
        Except.error (PyError.featureNotPresent name
          (pyRepr filename ++ " not found by kpsewhich"))) := by
  constructor <;> intro hc <;> simp [TeXFile_absolute_filename, h, hc]

/-- Witness for the amended C2 at a concrete environment with exit status zero. -/
theorem texFile_absolute_filename_resolution_witness :
    ((0 : Int) = 0 →
      (TeXFile_absolute_filename envAllOk "x" "article.cls").1 =
        Except.ok (pyStrip "/texmf/article.cls")) ∧
    ((0 : Int) ≠ 0 →
      (TeXFile_absolute_filename envAllOk "x" "article.cls").1 =
        Except.error (PyError.featureNotPresent "x"
          (pyRepr "article.cls" ++ " not found by kpsewhich"))) :=
  texFile_absolute_filename_resolution envAllOk "x" "article.cls" 0
    "/texmf/article.cls" rfl

/-- Claim C3: `is_functional` is positive — present and with no reason — exactly
when the functional-check run exits zero; a nonzero exit status yields a negative
result whose reason embeds the observed status, and that reason differs from the
NotFound reason used for an absent executable. -/
theorem latex_is_functional_exit_status (env : Env) (name : String) (r : Int)
    (h : env.shellExit (latexCmdline env name) = r) :
    ((LaTeX_is_functional env name).1 = ⟨name, true, none⟩ ↔ r = 0) ∧
    (r ≠ 0 → (LaTeX_is_functional env name).1 =
      ⟨name, false, some (latexFunctionalFailureReason r)⟩) ∧
    latexFunctionalFailureReason r ≠ executableNotFoundReason name := by
  refine ⟨?_, ?_, reason_texts_distinct r name⟩
  · by_cases hr : r = 0 <;> simp [LaTeX_is_functional, h, hr]
  · intro hr
    simp [LaTeX_is_functional, h, hr]

/-- Witness for C3 at a concrete environment whose shell reports status 127. -/
theorem latex_is_functional_exit_status_witness :
    ((LaTeX_is_functional envAllAbsent "latex").1 = ⟨"latex", true, none⟩ ↔
      (127 : Int) = 0) ∧
    ((127 : Int) ≠ 0 → (LaTeX_is_functional envAllAbsent "latex").1 =
      ⟨"latex", false, some (latexFunctionalFailureReason 127)⟩) ∧
    latexFunctionalFailureReason 127 ≠ executableNotFoundReason "latex" :=
  latex_is_functional_exit_status envAllAbsent "latex" 127 rfl

/-- Counterexample for C4: in an environment whose search path lacks `latex`,
`is_functional` nevertheless runs the program through the shell — the trace
records the shell run — and reports the shell's exit status 127 in its reason
rather than the not-found outcome. -/
theorem latex_is_functional_no_gate_counterexample :
    envAllAbsent.which "latex" = false ∧
    ExtCall.shellRun (latexCmdline envAllAbsent "latex") ∈
      (LaTeX_is_functional envAllAbsent "latex").2 ∧
    (LaTeX_is_functional envAllAbsent "latex").1 =
      ⟨"latex", false, some (latexFunctionalFailureReason 127)⟩ ∧
    (LaTeX_is_functional envAllAbsent "latex").1 ≠
      ⟨"latex", false, some (executableNotFoundReason "latex")⟩ := by
  refine ⟨rfl, by simp [LaTeX_is_functional, envAllAbsent], rfl, ?_⟩
  intro hcontra
  have h2 : FeatureTestResult.mk "latex" false
        (some (latexFunctionalFailureReason 127)) =
      ⟨"latex", false, some (executableNotFoundReason "latex")⟩ := hcontra
  exact reason_texts_distinct 127 "latex"
    (Option.some.inj (congrArg FeatureTestResult.reason h2))

/-- Claim C4 as amended: `is_functional` does not consult presence at all — it
unconditionally creates the scratch file and runs the program through the shell,
its outcome depending only on the shell's answers and the scratch names, and its
trace holds no search-path lookup, only the file creation and the shell run. -/
theorem latex_is_functional_runs_unconditionally (env env2 : Env) (name : String)
    (h : env.shellExit = env2.shellExit) (h2 : env.tmpFile = env2.tmpFile)
    (h3 : env.tmpDir = env2.tmpDir) :
    LaTeX_is_functional env name = LaTeX_is_functional env2 name ∧
    (LaTeX_is_functional env name).2 =
      [ExtCall.createFile (env.tmpDir ++ "/" ++ env.tmpFile),
       ExtCall.shellRun (latexCmdline env name)] := by
  constructor
  · simp [LaTeX_is_functional, latexCmdline, h, h2, h3]
  · by_cases hc : env.shellExit (latexCmdline env name) = 0 <;>
      simp [LaTeX_is_functional, hc]

/-- Witness for the amended C4 at a concrete environment. -/
theorem latex_is_functional_runs_unconditionally_witness :
    LaTeX_is_functional envAllOk "latex" = LaTeX_is_functional envAllOk "latex" ∧
    (LaTeX_is_functional envAllOk "latex").2 =
      [ExtCall.createFile (envAllOk.tmpDir ++ "/" ++ envAllOk.tmpFile),
       ExtCall.shellRun (latexCmdline envAllOk "latex")] :=
  latex_is_functional_runs_unconditionally envAllOk envAllOk "latex" rfl rfl rfl

/-- Counterexample for C5: on the success path at a concrete environment the
scratch file is created but never deleted before `is_functional` returns. -/
theorem latex_scratch_not_deleted_counterexample :
    (LaTeX_is_functional envAllOk "latex").1.isPresent = true ∧
    ExtCall.createFile "tmp/t.tex" ∈ (LaTeX_is_functional envAllOk "latex").2 ∧
    ExtCall.deleteFile "tmp/t.tex" ∉ (LaTeX_is_functional envAllOk "latex").2 := by
  decide

/-- Claim C5 as amended: on every path `is_functional` creates the scratch file
and performs no file deletion whatsoever before returning; the scratch file
outlives the call, its removal being left to the process-exit cleanup of the
temporary-file utility. -/
theorem latex_scratch_outlives_call (env : Env) (name : String) :
    ExtCall.createFile (env.tmpDir ++ "/" ++ env.tmpFile) ∈
      (LaTeX_is_functional env name).2 ∧
    ∀ p, ExtCall.deleteFile p ∉ (LaTeX_is_functional env name).2 := by
  by_cases hc : env.shellExit (latexCmdline env name) = 0 <;>
    simp [LaTeX_is_functional, hc]

/-- Counterexample for C6: when the resolver cannot be launched at all, the
operating-system fault escapes both `absolute_filename` and the presence check
instead of being converted into a NotFound outcome. -/
theorem texFile_resolver_launch_fault_counterexample :
    (TeXFile_absolute_filename envNoResolver "x" "article.cls").1 =
      Except.error PyError.osError ∧
    (TeXFile_is_present envNoResolver "x" "article.cls").1 =
      Except.error PyError.osError :=
  ⟨rfl, rfl⟩

/-- Claim C6 as amended: a resolver that exits with a nonzero status — including a
negative status standing for death by signal — is converted into the distinguished
not-present error, but a resolver that cannot be launched at all raises an
operating-system fault that propagates uncaught to the caller. -/
theorem texFile_resolver_fault_handling (env env2 : Env) (name filename : String)
    (code : Int) (out : String) (h : env.kpsewhich filename = some (code, out))
    (h2 : code ≠ 0) (h3 : env2.kpsewhich filename = none) :
    (TeXFile_absolute_filename env name filename).1 =
      Except.error (PyError.featureNotPresent name
        (pyRepr filename ++ " not found by kpsewhich")) ∧
    (TeXFile_absolute_filename env2 name filename).1 =
      Except.error PyError.osError := by
  constructor
  · simp [TeXFile_absolute_filename, h, h2]
  · simp [TeXFile_absolute_filename, h3]

/-- Witness for the amended C6: a resolver killed by signal 11 and a resolver that
cannot be launched. -/
theorem texFile_resolver_fault_handling_witness :
    (TeXFile_absolute_filename envResolverSignal "x" "article.cls").1 =
      Except.error (PyError.featureNotPresent "x"
        (pyRepr "article.cls" ++ " not found by kpsewhich")) ∧
    (TeXFile_absolute_filename envNoResolver "x" "article.cls").1 =
      Except.error PyError.osError :=
  texFile_resolver_fault_handling envResolverSignal envNoResolver "x"
    "article.cls" (-11) "" rfl (by decide) rfl

/-- Claim C7: constructing the package probe twice from the same identifier yields
equal declarations, hence identical derived names and interchangeable behaviour;
the derived name is the identifier with the `latex_package_` text in front and
dashes replaced by underscores, and the probed filename is the identifier with the
`.sty` suffix. -/
theorem latexPackage_identity_stable (p q : String) (h : p = q) :
    LaTeXPackage p = LaTeXPackage q ∧
    (LaTeXPackage p).name = "latex_package_" ++ replaceChar '-' '_' p ∧
    (LaTeXPackage p).filename = some (p ++ ".sty") := by
  subst h
  refine ⟨rfl, ?_, rfl⟩
  show LaTeXPackage_name p = "latex_package_" ++ replaceChar '-' '_' p
  unfold LaTeXPackage_name
  rw [replaceChar_append]
  congr 1

/-- Witness for C7 at the package identifier named by the claim. -/
theorem latexPackage_identity_stable_witness :
    LaTeXPackage "graphics" = LaTeXPackage "graphics" ∧
    (LaTeXPackage "graphics").name =
      "latex_package_" ++ replaceChar '-' '_' "graphics" ∧
    (LaTeXPackage "graphics").filename = some ("graphics" ++ ".sty") :=
  latexPackage_identity_stable "graphics" "graphics" rfl

/-- Claim C8: the registry enumeration is the ordered five-element sequence of the
four toolchain executables followed by the tkz-graph package probe, whose derived
name normalizes the dash and whose probed filename carries the `.sty` suffix. -/
theorem all_features_enumeration :
    all_features.length = 5 ∧
    all_features = [latexFeature, pdflatexFeature, xelatexFeature, lualatexFeature,
      LaTeXPackage "tkz-graph"] ∧
    all_features.map FeatureDecl.name =
      ["latex", "pdflatex", "xelatex", "lualatex", "latex_package_tkz_graph"] ∧
    all_features.getLast? = some ⟨FeatureKind.texFileKind,
      "latex_package_tkz_graph", some "tkz-graph.sty"⟩ := by
  refine ⟨rfl, rfl, ?_, ?_⟩ <;> decide

/-- Claim C9: `is_present` consults the cache first — the call after any call
returns the identical result while making zero external invocations — and on a
miss it runs the kind-specific check, stores its result and returns it. -/
theorem is_present_idempotent_cached (c : Option FeatureTestResult)
    (check : Unit → FeatureTestResult × Nat) :
    (cached_is_present none check).1 = (check ()).1 ∧
    (cached_is_present none check).2.1 = some (check ()).1 ∧
    (cached_is_present (cached_is_present c check).2.1 check).1 =
      (cached_is_present c check).1 ∧
    (cached_is_present (cached_is_present c check).2.1 check).2.2 = 0 := by
  cases c <;> simp [cached_is_present]

/-- Claim C10: `absolute_filename` launches the resolver unconditionally — its
outcome depends only on the resolver's answers, never on the search path, and its
trace is exactly the one resolver launch with no dependency lookup — and at a
concrete environment lacking pdflatex the presence check reports absent while
`absolute_filename` still returns a resolved path. -/
theorem texFile_absolute_filename_unconditional (env env2 : Env)
    (name filename : String) (h : env.kpsewhich = env2.kpsewhich) :
    TeXFile_absolute_filename env name filename =
      TeXFile_absolute_filename env2 name filename ∧
    (TeXFile_absolute_filename env name filename).2 =
      [ExtCall.kpseRun filename] ∧
    (TeXFile_is_present envNoPdflatex "x" "article.cls").1 =
      Except.ok ⟨"pdflatex", false, some (executableNotFoundReason "pdflatex")⟩ ∧
    (TeXFile_absolute_filename envNoPdflatex "x" "article.cls").1 =
      Except.ok "/texmf/article.cls" := by
  refine ⟨?_, ?_, rfl, rfl⟩
  · simp only [TeXFile_absolute_filename, h]
  · cases hk : env.kpsewhich filename with
    | none => simp [TeXFile_absolute_filename, hk]
    | some co =>
      cases co with
      | mk code out =>
        by_cases hc : code = 0 <;> simp [TeXFile_absolute_filename, hk, hc]

/-- Witness for C10 at a concrete environment lacking pdflatex. -/
theorem texFile_absolute_filename_unconditional_witness :
    TeXFile_absolute_filename envNoPdflatex "x" "article.cls" =
      TeXFile_absolute_filename envNoPdflatex "x" "article.cls" ∧
    (TeXFile_absolute_filename envNoPdflatex "x" "article.cls").2 =
      [ExtCall.kpseRun "article.cls"] ∧
    (TeXFile_is_present envNoPdflatex "x" "article.cls").1 =
      Except.ok ⟨"pdflatex", false, some (executableNotFoundReason "pdflatex")⟩ ∧
    (TeXFile_absolute_filename envNoPdflatex "x" "article.cls").1 =
      Except.ok "/texmf/article.cls" :=
  texFile_absolute_filename_unconditional envNoPdflatex envNoPdflatex "x"
    "article.cls" rfl

end SageLatex
